import Mathlib

/-!
Verification of the kickq job-queue core against its specification.

The embedding translates the JavaScript sources:
  - model/job.model.js  (JobModel: fetch, create, processed and its helpers)
  - ctrl/create.ctrl.js (Create: save, onSuccess, onFail)
  - ctrl/worker.ctrl.js (Worker: masterLoop, throttleLoop, workStart,
    workFinish, workTimeout)
into pure Lean functions. Machine time (Date.now()) is passed in as a
natural-number parameter. Redis and promise effects are made explicit as
effect lists or result constructors.

Parts of the repository that the claims depend on but whose source files
are not available (model/states.js, model/job.item.js, model/queue.model.js,
model/popjob.model.js) are modelled from the specification; each such
definition carries a doc comment beginning with "Modelled from the spec:".
-/

namespace Kickq

/-- Modelled from the spec: the job states of model/states.js
(spec section 3.1, attribute state). -/
inductive JobState
  | NEW
  | DELAYED
  | QUEUED
  | PROCESSING
  | RETRY
  | GHOST
  | SUCCESS
  | FAIL
deriving DecidableEq, Repr

/-- Modelled from the spec: the process-item states of model/states.js
(spec section 3.2, attribute state). -/
inductive ProcState
  | PROCESSING
  | SUCCESS
  | FAIL
  | GHOST
deriving DecidableEq, Repr

/-- Embedding of a JavaScript value as far as the worker callback contract
needs it: the optErr argument of Worker.prototype.workFinish may be
undefined, null, a boolean, a string, a number, or any other object
(for example an Error instance, represented by obj with a tag). -/
inductive JSVal
  | undef
  | null
  | bool (b : Bool)
  | str (s : String)
  | num (n : Int)
  | obj (tag : String)
deriving DecidableEq, Repr

/-- Modelled from the spec: a Process Item of model/job.item.js
(spec section 3.2): one entry per dispatch attempt, with 1-based count,
startTime, processTime (null until the attempt ends), a process state and
an errorMessage (null on success). -/
structure ProcessItem where
  count : Nat
  startTime : Nat
  processTime : Option Nat
  state : ProcState
  errorMessage : Option JSVal
deriving DecidableEq, Repr

/-- Modelled from the spec: the Job Record of model/job.item.js
(spec section 3.1), restricted to the attributes the claims mention.
finishTime and totalProcessTime start as null (none). -/
structure JobItem where
  id : Option String
  name : String
  state : JobState
  complete : Bool
  success : Bool
  finishTime : Option Nat
  totalProcessTime : Option Nat
  retry : Bool
  retryTimes : Nat
  ghostRetry : Bool
  ghostTimes : Nat
  runs : List ProcessItem
  lastError : Option JSVal
deriving DecidableEq, Repr

/-- Sum of processTime over the runs of a job, as accumulated by the
forEach loop in JobModel.prototype.finishJob (job.model.js lines 295-299);
a null processTime adds nothing, as in JavaScript numeric addition. -/
def sumProcessTime (runs : List ProcessItem) : Nat :=
  runs.foldl (fun acc p => acc + p.processTime.getD 0) 0

/-- Embedding of JobModel.prototype.finishJob (job.model.js lines 287-300):
sets complete, success, the terminal state, finishTime := Date.now() and
totalProcessTime := sum of processTime over runs. -/
def finishJob (now : Nat) (outcome : Bool) (job : JobItem) : JobItem :=
  { job with
    complete := true
    success := outcome
    state := if outcome then JobState.SUCCESS else JobState.FAIL
    finishTime := some now
    totalProcessTime := some (sumProcessTime job.runs) }

/-- Embedding of JobModel.prototype.processedError (job.model.js lines
235-249): no retry or exhausted retries finish the job as failed,
otherwise the state becomes RETRY. -/
def processedError (now : Nat) (job : JobItem) : JobItem :=
  if !job.retry then
    finishJob now false job
  else if job.runs.length < job.retryTimes then
    { job with state := JobState.RETRY }
  else
    finishJob now false job

/-- Count of ghost process items in runs, as accumulated by the forEach
loop in JobModel.prototype.processedTimeout (job.model.js lines 264-269). -/
def ghostCount (runs : List ProcessItem) : Nat :=
  runs.foldl (fun c p => if p.state = ProcState.GHOST then c + 1 else c) 0

/-- Embedding of JobModel.prototype.processedTimeout (job.model.js lines
256-279): no ghost retry finishes the job as failed; otherwise the job is
failed when the ghost count strictly exceeds ghostTimes and becomes GHOST
otherwise. -/
def processedTimeout (now : Nat) (job : JobItem) : JobItem :=
  if !job.ghostRetry then
    finishJob now false job
  else if ghostCount job.runs > job.ghostTimes then
    finishJob now false job
  else
    { job with state := JobState.GHOST }

/-- Embedding of the state-transition part of JobModel.prototype.processed
(job.model.js lines 192-201): success first, then the timeout path, then
the error path. -/
def processedTransition (now : Nat) (success optTimeout : Bool) (job : JobItem) : JobItem :=
  if success then
    finishJob now true job
  else if optTimeout then
    processedTimeout now job
  else
    processedError now job

/-- Embedding of the success classification in Worker.prototype.workFinish
(worker.ctrl.js lines 326-330): success starts as the negation of
(isString optErr and optErr.length is non-zero) and is overridden to false
when optErr is the boolean false. A boolean maps to itself, a string to
whether it is empty, and every other value (undefined, null, numbers,
objects such as Error instances) yields true. -/
def determineSuccess : JSVal → Bool
  | JSVal.str s => decide (s.length = 0)
  | JSVal.bool b => b
  | _ => true

/-- The per-job slice of the worker state: the entry of the processing map
for the job (none once deleted or never set) and the disposed flag. -/
structure WorkerJobState where
  inFlight : Option ProcessItem
  disposed : Bool
deriving DecidableEq, Repr

/-- Observable actions of the worker completion paths: a call of
JobModel.prototype.processed carrying the outcome pair and the state of the
process item of the attempt, and a re-entry of the master loop. -/
inductive WEffect
  | processed (success timedOut : Bool) (procState : ProcState)
  | masterLoop
deriving DecidableEq, Repr

/-- Modelled from the spec: JobItem.prototype.addProcessItem of
model/job.item.js, whose source is not under src. Spec sections 3.2 and 3.3:
runs holds one entry per dispatch attempt, runs.length equals the attempt
count seen so far, and the last entry records the outcome of the attempt
just finished; so adding the finished Process Item appends it to runs. -/
def addProcessItem (item : ProcessItem) (job : JobItem) : JobItem :=
  { job with runs := job.runs ++ [item] }

/-- Result of a worker completion path: the new per-job worker state, the
job item, and the effects issued. -/
structure WorkResult where
  worker : WorkerJobState
  job : JobItem
  effects : List WEffect
deriving DecidableEq, Repr

/-- Embedding of Worker.prototype.workFinish (worker.ctrl.js lines 301-354):
a disposed worker does nothing; an absent process item (timed out or
already completed) only re-enters the master loop; otherwise the outcome is
classified, the process item is finalized and appended to runs, the entry
is removed from the processing map, and processed(success) is issued
followed by the master-loop re-entry. -/
def workFinish (now : Nat) (job : JobItem) (optErr : JSVal) (w : WorkerJobState) : WorkResult :=
  if w.disposed then ⟨w, job, []⟩
  else match w.inFlight with
  | none => ⟨w, job, [WEffect.masterLoop]⟩
  | some item0 =>
    let success := determineSuccess optErr
    let item := { item0 with
      processTime := some (now - item0.startTime)
      state := if success then ProcState.SUCCESS else ProcState.FAIL
      errorMessage := if success then item0.errorMessage else some optErr }
    let job1 := if success then job else { job with lastError := some optErr }
    ⟨⟨none, w.disposed⟩, addProcessItem item job1,
      [WEffect.processed success false item.state, WEffect.masterLoop]⟩

/-- Embedding of Worker.prototype.workTimeout (worker.ctrl.js lines
363-390): a disposed worker does nothing; an absent process item only
re-enters the master loop; otherwise the process item becomes GHOST, the
entry is removed from the processing map, and processed(false, true) is
issued followed by the master-loop re-entry. The source does not append the
item to runs on this path. -/
def workTimeout (now : Nat) (job : JobItem) (w : WorkerJobState) : WorkResult :=
  if w.disposed then ⟨w, job, []⟩
  else match w.inFlight with
  | none => ⟨w, job, [WEffect.masterLoop]⟩
  | some item0 =>
    let item := { item0 with
      processTime := some (now - item0.startTime)
      state := ProcState.GHOST
      errorMessage := some (JSVal.str "processing timed out") }
    ⟨⟨none, w.disposed⟩, { job with lastError := some (JSVal.str "processing timed out") },
      [WEffect.processed false true item.state, WEffect.masterLoop]⟩

/-- Observable redis actions of the persistence chain of
JobModel.prototype.processed: the state-index transition performed by
setState (modelled from the spec: updateStateIndex of section 4.1, a
transition from the old state to the new one), the save of the full record,
and the enqueue request to the queue router. -/
inductive PersistEffect
  | updateStateIndex (oldState newState : JobState)
  | saveRecord
  | enqueue
deriving DecidableEq, Repr

/-- Embedding of the promise chain of JobModel.prototype.processed
(job.model.js lines 212-214): setState(newState), then job.save, then
saveQueue. setStateOk and saveOk say whether the first and second redis
steps succeed; a failing step rejects the chain and the following steps are
never issued. -/
def processedPersistence (oldState newState : JobState) (setStateOk saveOk : Bool) :
    List PersistEffect :=
  PersistEffect.updateStateIndex oldState newState ::
    (if setStateOk then
      PersistEffect.saveRecord :: (if saveOk then [PersistEffect.enqueue] else [])
    else [])

/-- Embedding of JobModel.prototype.processed (job.model.js lines 181-227):
captures the pre-attempt state, applies the outcome transition, and issues
the persistence chain with the captured old state and the new state. -/
def processed (now : Nat) (success optTimeout : Bool) (setStateOk saveOk : Bool)
    (job : JobItem) : JobItem × List PersistEffect :=
  let newJob := processedTransition now success optTimeout job
  (newJob, processedPersistence job.state newJob.state setStateOk saveOk)

/-- The part of a deserialized job record that fetch inspects: its id and
its state field. Modelled from the spec: the JobItem constructor of
model/job.item.js preserves the declared fields of the parsed record
(round-trip law, spec section 8). -/
structure RawJob where
  id : Option String
  state : Option String
deriving DecidableEq, Repr

/-- Result of the fetch response handler: a database failure
(kError.Database), a missing record (kError.NoRecord, the NotFound of the
spec), a deserialization failure (kError.JSON, the Corrupt of the spec), or
the fetched record. -/
inductive FetchResult
  | dbFailure (msg : String)
  | noRecord (jobId : String)
  | jsonFailure
  | fetched (job : RawJob)
deriving DecidableEq, Repr

/-- Embedding of JobModel.prototype.fetchResponse (job.model.js lines
85-126). parse stands for JSON.parse: none when parsing throws. The redis
reply for an absent key has null in both fields, so itemData is not a
string and the NoRecord branch fires. The state of the parsed record is
overwritten with the separately stored state field before the id check. -/
def fetchResponse (parse : String → Option RawJob) (jobId : String)
    (err : Option String) (itemData stateField : Option String) : FetchResult :=
  match err with
  | some e => FetchResult.dbFailure e
  | none =>
    match itemData with
    | none => FetchResult.noRecord jobId
    | some s =>
      match parse s with
      | none => FetchResult.jsonFailure
      | some raw =>
        let raw1 : RawJob := { raw with state := stateField }
        if raw1.id = some jobId then FetchResult.fetched raw1
        else FetchResult.noRecord jobId

/-- Worker.param.BUFFER_GRACE (worker.ctrl.js line 87). -/
def BUFFER_GRACE : Nat := 5

/-- Worker.param.THROTTLE_LIMIT in milliseconds (worker.ctrl.js line 91). -/
def THROTTLE_LIMIT : Nat := 5000

/-- Worker.param.THROTTLE_TIMEOUT in milliseconds (worker.ctrl.js line 95). -/
def THROTTLE_TIMEOUT : Nat := 5000

/-- throttleBufferLen of the worker (worker.ctrl.js line 165):
concurrentJobs + BUFFER_GRACE. -/
def throttleBufferLen (concurrentJobs : Nat) : Nat :=
  concurrentJobs + BUFFER_GRACE

/-- The throttle bookkeeping of a worker: the master switch, the recorded
invocation timestamps, the delay of a pending throttle timer, and the
disposed flag. -/
structure ThrottleState where
  throttleOn : Bool
  throttleCall : List Nat
  timerDelay : Option Nat
  disposed : Bool
deriving DecidableEq, Repr

/-- Embedding of Worker.prototype.throttleLoop (worker.ctrl.js lines
210-244): short-circuits when the throttle is on or the worker disposed;
otherwise records now, trims the buffer to the last throttleBufferLen
entries, lets the loop continue (false) when now minus the oldest buffered
timestamp strictly exceeds THROTTLE_LIMIT, and otherwise engages the
throttle and schedules the timer with delay THROTTLE_TIMEOUT (true stops
the loop). -/
def throttleLoop (concurrentJobs : Nat) (now : Nat) (st : ThrottleState) :
    ThrottleState × Bool :=
  if st.throttleOn || st.disposed then (st, true)
  else
    let calls0 := st.throttleCall ++ [now]
    let callLen := calls0.length
    let bufLen := throttleBufferLen concurrentJobs
    let calls := if callLen > bufLen then calls0.drop (callLen - bufLen) else calls0
    if now - calls.headD 0 > THROTTLE_LIMIT then
      ({ st with throttleCall := calls }, false)
    else
      ({ st with
          throttleCall := calls
          throttleOn := true
          timerDelay := some THROTTLE_TIMEOUT }, true)

/-- What the master loop does after its entry checks: nothing (disposed),
stop because throttled, or issue pop operations up to concurrentJobs. -/
inductive LoopOutcome
  | stopped
  | throttled
  | popIssued (count : Nat)
deriving DecidableEq, Repr

/-- Embedding of Worker.prototype.masterLoop (worker.ctrl.js lines
176-203): a disposed worker returns; the throttle is evaluated only when
optErr is present (the loop was re-entered on an error path) and stops the
loop when it engages; otherwise pop operations are issued until the number
of in-flight jobs reaches concurrentJobs. -/
def masterLoop (concurrentJobs : Nat) (now : Nat) (optErr : Option String)
    (processingCount : Nat) (st : ThrottleState) : ThrottleState × LoopOutcome :=
  if st.disposed then (st, LoopOutcome.stopped)
  else match optErr with
  | some _ =>
    let r := throttleLoop concurrentJobs now st
    if r.2 then (r.1, LoopOutcome.throttled)
    else (r.1, LoopOutcome.popIssued (concurrentJobs - processingCount))
  | none => (st, LoopOutcome.popIssued (concurrentJobs - processingCount))

/-- Embedding of the throttle timer callback (worker.ctrl.js lines
234-241): switches the throttle off, clears the call buffer, and re-enters
the master loop with no error argument. -/
def throttleTimeoutFire (concurrentJobs : Nat) (now : Nat) (processingCount : Nat)
    (st : ThrottleState) : ThrottleState × LoopOutcome :=
  masterLoop concurrentJobs now none processingCount
    { st with throttleOn := false, throttleCall := [], timerDelay := none }

/-- The typed errors of utility/kerror.js that the create path produces:
kError.Database (job.model.js line 139) and the storage errors of the
remaining chain steps. Modelled from the spec: the chain steps whose source
is not under src (job.save, createState, createTimeIndex, queue save, time
index) surface a StorageError on failure (spec section 4.1). -/
inductive KError
  | database (msg : String)
  | storage (tag : String)
deriving DecidableEq, Repr

/-- Behavior of the user completion callback passed to create: it either
returns normally or throws. -/
inductive CbBehavior
  | returns
  | throws (msg : String)
deriving DecidableEq, Repr

/-- Final disposition of the deferred returned by Create.prototype.save:
never settled, resolved with the public job item, rejected with a typed
error, or rejected with the raw exception of the user callback (the
onSuccess grounding path). -/
inductive DeferredState
  | pending
  | resolved
  | rejected (e : KError)
  | rejectedRaw (msg : String)
deriving DecidableEq, Repr

/-- Outcome of settling the create deferred: its final state, and the
exception re-raised into the surrounding promise layer when the user
callback threw on the failure path (when.js catches handler exceptions, so
it never becomes an asynchronous throw). -/
structure SettleResult where
  deferred : DeferredState
  raisedIntoPromiseLayer : Option String
deriving DecidableEq, Repr

/-- Embedding of Create.prototype.onFail (create.ctrl.js lines 106-120): a
disposed instance returns before settling; otherwise the finally block
rejects the deferred with the typed error ex even when the user callback
throws, in which case the callback exception is re-raised inside the
rejection handler. -/
def createOnFail (disposed : Bool) (done : CbBehavior) (ex : KError) : SettleResult :=
  if disposed then ⟨DeferredState.pending, none⟩
  else match done with
  | CbBehavior.returns => ⟨DeferredState.rejected ex, none⟩
  | CbBehavior.throws m => ⟨DeferredState.rejected ex, some m⟩

/-- Embedding of Create.prototype.onSuccess (create.ctrl.js lines 81-98): a
disposed instance returns before settling; a throwing user callback rejects
the deferred with the thrown exception; otherwise the deferred resolves. -/
def createOnSuccess (disposed : Bool) (done : CbBehavior) : SettleResult :=
  if disposed then ⟨DeferredState.pending, none⟩
  else match done with
  | CbBehavior.throws m => ⟨DeferredState.rejectedRaw m, none⟩
  | CbBehavior.returns => ⟨DeferredState.resolved, none⟩

/-- Embedding of Create.prototype.save (create.ctrl.js lines 68-74) given
the outcome of JobModel.prototype.create: failures route to onFail with the
typed error, success to onSuccess. -/
def createSave (outcome : Except KError Unit) (done : CbBehavior) (disposed : Bool) :
    SettleResult :=
  match outcome with
  | Except.error e => createOnFail disposed done e
  | Except.ok _ => createOnSuccess disposed done

/-- The argument of the JobModel constructor: a string, a JobItem instance,
or any other value (otherArg covers empty obligations of the instanceof
test: numbers, plain objects, null and the rest). -/
inductive CtorArg
  | strArg (s : String)
  | itemArg (j : JobItem)
  | otherArg (tag : String)
deriving DecidableEq, Repr

/-- The instance fields of JobModel that the fetch defense inspects. jobId
of none stands for any non-string value (the initial null included). -/
structure ModelState where
  job : Option JobItem
  jobId : Option String
  hasJobItem : Bool
deriving DecidableEq, Repr

/-- Result of running the JobModel constructor: the constructed instance
state, or a synchronously thrown TypeError. -/
inductive CtorResult
  | ok (m : ModelState)
  | typeError (msg : String)
deriving DecidableEq, Repr

/-- Embedding of the JobModel constructor (job.model.js lines 24-49): a
non-empty string is taken as the job id; every other argument must be a
JobItem instance, else a TypeError is thrown; a JobItem argument loads the
item and marks hasJobItem. -/
def jobModelCtor : CtorArg → CtorResult
  | CtorArg.strArg s =>
    if s.length > 0 then CtorResult.ok ⟨none, some s, false⟩
    else CtorResult.typeError "Argument not string or Kickq.JobItem"
  | CtorArg.itemArg j => CtorResult.ok ⟨some j, j.id, true⟩
  | CtorArg.otherArg _ => CtorResult.typeError "Argument not string or Kickq.JobItem"

/-- First action of JobModel.prototype.fetch: a synchronous throw from a
defense check, or the redis hmget on the job key. -/
inductive FetchStep
  | syncThrow (msg : String)
  | issueHmget (key : String)
deriving DecidableEq, Repr

/-- Embedding of the entry of JobModel.prototype.fetch (job.model.js lines
57-75): the defense checks throw synchronously (the deferred is abandoned,
not rejected); only past both checks is the hmget issued on NS:job:jobId. -/
def jobModelFetch (NS : String) (m : ModelState) : FetchStep :=
  if m.hasJobItem then
    FetchStep.syncThrow "Instance already contains a job item"
  else match m.jobId with
  | some id => FetchStep.issueHmget (NS ++ ":job:" ++ id)
  | none => FetchStep.syncThrow "No job id has been defined"

/-- A fresh Process Item as created at dispatch by Worker.prototype.workStart
(worker.ctrl.js line 259). Modelled from the spec: the ProcessItem
constructor of model/job.item.js is not under src; spec section 3.2 gives
the 1-based attempt count, startTime of now, and the PROCESSING state. -/
def freshProcessItem (now : Nat) (job : JobItem) : ProcessItem :=
  ⟨job.runs.length + 1, now, none, ProcState.PROCESSING, none⟩

/-- One complete failing attempt of the worker on a job: workFinish runs
with the error value reported by the consumer callback on the in-flight
item of the attempt, and the processed transition is applied with the
outcome workFinish reports (worker.ctrl.js line 350 with optTimeout
absent). -/
def failingAttempt (now : Nat) (errMsg : String) (job : JobItem) : JobItem :=
  let r := workFinish now job (JSVal.str errMsg) ⟨some (freshProcessItem now job), false⟩
  processedTransition now (determineSuccess (JSVal.str errMsg)) false r.job

/-- A concrete job used to evaluate the embedding on explicit inputs:
name mail, retry on with retryTimes 2, ghost retry on with ghostTimes 1,
no runs yet. -/
def c1Job : JobItem :=
  ⟨some "1", "mail", JobState.QUEUED, false, false, none, none, true, 2, true, 1, [], none⟩

/-- A concrete deserializer standing in for JSON.parse on explicit inputs:
the itemData string good parses to the record with id 1 and state NEW,
everything else fails to parse. -/
def sampleParse (s : String) : Option RawJob :=
  if s = "good" then some ⟨some "1", some "NEW"⟩ else none

/-- Claim C3: for every job whose attempt finishes with success false and
timedOut true, the outcome processor moves it to terminal FAIL when
ghostRetry is false; otherwise it moves to terminal FAIL when the count of
GHOST process items in runs strictly exceeds ghostTimes, and to transient
GHOST otherwise (so a job goes GHOST only while its recorded ghost count is
at most ghostTimes, permitting up to ghostTimes + 1 ghost attempts). -/
theorem claim_C3_timeout_outcome (now : Nat) (job : JobItem) :
    (job.ghostRetry = false →
      (processedTransition now false true job).state = JobState.FAIL ∧
      (processedTransition now false true job).complete = true ∧
      (processedTransition now false true job).success = false) ∧
    (job.ghostRetry = true → ghostCount job.runs > job.ghostTimes →
      (processedTransition now false true job).state = JobState.FAIL ∧
      (processedTransition now false true job).complete = true ∧
      (processedTransition now false true job).success = false) ∧
    (job.ghostRetry = true → ghostCount job.runs ≤ job.ghostTimes →
      (processedTransition now false true job).state = JobState.GHOST ∧
      ghostCount (processedTransition now false true job).runs ≤ job.ghostTimes) := by
  refine ⟨?_, ?_, ?_⟩
  · intro h
    simp [processedTransition, processedTimeout, h, finishJob]
  · intro h hg
    simp [processedTransition, processedTimeout, h, hg, finishJob]
  · intro h hg
    simp [processedTransition, processedTimeout, h, Nat.not_lt.mpr hg, finishJob]
    exact hg

/-- Witness for claim C3: the concrete job with ghost retry on, ghostTimes
1 and no ghost runs goes to transient GHOST on a timeout. -/
theorem claim_C3_timeout_outcome_witness :
    c1Job.ghostRetry = true ∧ ghostCount c1Job.runs ≤ c1Job.ghostTimes ∧
    (processedTransition 7 false true c1Job).state = JobState.GHOST :=
  ⟨by decide, by decide,
    (((claim_C3_timeout_outcome 7 c1Job).2.2) (by decide) (by decide)).1⟩

/-- Claim C4: an attempt that finishes with success true drives the job to
terminal SUCCESS with complete set, a non-null finishTime, and
totalProcessTime equal to the sum of processTime over runs; and whenever
the outcome transition lands on SUCCESS or FAIL, complete is set and
finishTime is non-null. -/
theorem claim_C4_success_finish (now : Nat) (success timedOut : Bool) (job : JobItem) :
    (success = true →
      (processedTransition now success timedOut job).state = JobState.SUCCESS ∧
      (processedTransition now success timedOut job).complete = true ∧
      (processedTransition now success timedOut job).finishTime = some now ∧
      (processedTransition now success timedOut job).totalProcessTime =
        some (sumProcessTime job.runs)) ∧
    ((processedTransition now success timedOut job).state = JobState.SUCCESS ∨
      (processedTransition now success timedOut job).state = JobState.FAIL →
      (processedTransition now success timedOut job).complete = true ∧
      (processedTransition now success timedOut job).finishTime ≠ none) := by
  constructor
  · intro hs
    subst hs
    simp [processedTransition, finishJob]
  · intro hterm
    cases success with
    | true => simp [processedTransition, finishJob]
    | false =>
      cases timedOut with
      | true =>
        cases hg : job.ghostRetry with
        | false =>
          simp [processedTransition, processedTimeout, hg, finishJob]
        | true =>
          by_cases hc : ghostCount job.runs > job.ghostTimes
          · simp [processedTransition, processedTimeout, hg, hc, finishJob]
          · simp [processedTransition, processedTimeout, hg, hc, finishJob] at hterm
      | false =>
        cases hr : job.retry with
        | false =>
          simp [processedTransition, processedError, hr, finishJob]
        | true =>
          by_cases hc : job.runs.length < job.retryTimes
          · simp [processedTransition, processedError, hr, hc, finishJob] at hterm
          · simp [processedTransition, processedError, hr, hc, finishJob]

/-- Witness for claim C4: a successful attempt on the concrete job ends in
SUCCESS with complete set, finishTime 9 and zero total process time. -/
theorem claim_C4_success_finish_witness :
    (processedTransition 9 true false c1Job).state = JobState.SUCCESS ∧
    (processedTransition 9 true false c1Job).complete = true ∧
    (processedTransition 9 true false c1Job).finishTime = some 9 ∧
    (processedTransition 9 true false c1Job).totalProcessTime =
      some (sumProcessTime c1Job.runs) :=
  (claim_C4_success_finish 9 true false c1Job).1 rfl

/-- Claim C5: fetch of a job id reads the itemData and state pair and, on
success, returns the deserialized record with its state overwritten by the
separately stored state field; it fails with NoRecord (NotFound) when the
key is absent, with a JSON error (Corrupt) when itemData does not parse,
and with NoRecord when the parsed id differs from the requested id. -/
theorem claim_C5_fetch_response (parse : String → Option RawJob) (jobId : String)
    (itemData stateField : Option String) :
    (itemData = none →
      fetchResponse parse jobId none itemData stateField = FetchResult.noRecord jobId) ∧
    (∀ s, itemData = some s → parse s = none →
      fetchResponse parse jobId none itemData stateField = FetchResult.jsonFailure) ∧
    (∀ s raw, itemData = some s → parse s = some raw → raw.id = some jobId →
      fetchResponse parse jobId none itemData stateField =
        FetchResult.fetched ⟨raw.id, stateField⟩) ∧
    (∀ s raw, itemData = some s → parse s = some raw → raw.id ≠ some jobId →
      fetchResponse parse jobId none itemData stateField = FetchResult.noRecord jobId) := by
  refine ⟨?_, ?_, ?_, ?_⟩
  · intro h
    subst h
    rfl
  · intro s hs hp
    subst hs
    simp [fetchResponse, hp]
  · intro s raw hs hp hid
    subst hs
    simp [fetchResponse, hp, hid]
  · intro s raw hs hp hid
    subst hs
    simp [fetchResponse, hp, hid]

/-- Witness for claim C5: fetching id 1 when the stored pair parses to the
record with id 1 and state NEW while the stored state field is QUEUED
returns the record with state QUEUED. -/
theorem claim_C5_fetch_response_witness :
    sampleParse "good" = some ⟨some "1", some "NEW"⟩ ∧
    fetchResponse sampleParse "1" none (some "good") (some "QUEUED") =
      FetchResult.fetched ⟨some "1", some "QUEUED"⟩ :=
  ⟨by decide,
    (claim_C5_fetch_response sampleParse "1" (some "good") (some "QUEUED")).2.2.1
      "good" ⟨some "1", some "NEW"⟩ rfl (by decide) (by decide)⟩

/-- Claim C6: for every finished job, outcome persistence issues its
effects strictly in the order state-index update (a transition from the
captured pre-attempt state to the new state), then the record save, then
the queue enqueue: the save never precedes the state-index update and the
enqueue never precedes the save, whichever steps fail. -/
theorem claim_C6_persistence_order (now : Nat) (success timedOut setStateOk saveOk : Bool)
    (job : JobItem) :
    ((processed now success timedOut setStateOk saveOk job).2).head? =
      some (PersistEffect.updateStateIndex job.state
        (processedTransition now success timedOut job).state) ∧
    (PersistEffect.saveRecord ∈ (processed now success timedOut setStateOk saveOk job).2 →
      ((processed now success timedOut setStateOk saveOk job).2).take 2 =
        [PersistEffect.updateStateIndex job.state
          (processedTransition now success timedOut job).state,
         PersistEffect.saveRecord]) ∧
    (PersistEffect.enqueue ∈ (processed now success timedOut setStateOk saveOk job).2 →
      (processed now success timedOut setStateOk saveOk job).2 =
        [PersistEffect.updateStateIndex job.state
          (processedTransition now success timedOut job).state,
         PersistEffect.saveRecord, PersistEffect.enqueue]) := by
  cases setStateOk <;> cases saveOk <;>
    simp [processed, processedPersistence]

/-- Witness for claim C6: on the concrete job with a successful outcome and
both redis steps succeeding, the enqueue is present and the effect list is
exactly state-index update, save, enqueue. -/
theorem claim_C6_persistence_order_witness :
    PersistEffect.enqueue ∈ (processed 4 true false true true c1Job).2 ∧
    (processed 4 true false true true c1Job).2 =
      [PersistEffect.updateStateIndex JobState.QUEUED JobState.SUCCESS,
       PersistEffect.saveRecord, PersistEffect.enqueue] :=
  ⟨by decide,
    ((claim_C6_persistence_order 4 true false true true c1Job).2.2 (by decide)).trans
      (by decide)⟩

/-- Claim C7: if the per-job timer fires before the completion callback,
the recorded outcome is success false with timedOut true and the process
item state GHOST, the process item is removed from the in-flight map, and
any later completion callback for the job is a no-op on job state that
persists nothing (it only re-enters the master loop); so at most one
outcome is driven for the attempt. -/
theorem claim_C7_timeout_idempotence (now1 now2 : Nat) (job : JobItem)
    (item : ProcessItem) (v : JSVal) :
    (workTimeout now1 job ⟨some item, false⟩).effects =
      [WEffect.processed false true ProcState.GHOST, WEffect.masterLoop] ∧
    (workTimeout now1 job ⟨some item, false⟩).worker.inFlight = none ∧
    (workFinish now2 (workTimeout now1 job ⟨some item, false⟩).job v
        (workTimeout now1 job ⟨some item, false⟩).worker).job =
      (workTimeout now1 job ⟨some item, false⟩).job ∧
    (workFinish now2 (workTimeout now1 job ⟨some item, false⟩).job v
        (workTimeout now1 job ⟨some item, false⟩).worker).effects =
      [WEffect.masterLoop] ∧
    (∀ s t ps, WEffect.processed s t ps ∉
      (workFinish now2 (workTimeout now1 job ⟨some item, false⟩).job v
        (workTimeout now1 job ⟨some item, false⟩).worker).effects) := by
  refine ⟨rfl, rfl, rfl, rfl, ?_⟩
  intro s t ps
  simp [workFinish, workTimeout]

/-- Claim C9: the throttle is evaluated only when the master loop is
re-entered on an error path (a plain entry leaves the throttle state
untouched and issues pops); each error-path evaluation appends the current
time to the call buffer and trims it to the last concurrentJobs +
BUFFER_GRACE entries; the throttle engages exactly when the oldest buffered
timestamp is within THROTTLE_LIMIT of now, scheduling a THROTTLE_TIMEOUT
timer; while engaged every evaluation short-circuits untouched; and the
timer firing clears the buffer, switches the throttle off and resumes the
loop. -/
theorem claim_C9_throttle (cj now pc : Nat) (st : ThrottleState) (e : String) :
    (st.disposed = false →
      masterLoop cj now none pc st = (st, LoopOutcome.popIssued (cj - pc))) ∧
    (st.disposed = false →
      (masterLoop cj now (some e) pc st).1 = (throttleLoop cj now st).1 ∧
      ((masterLoop cj now (some e) pc st).2 = LoopOutcome.throttled ↔
        (throttleLoop cj now st).2 = true)) ∧
    (st.disposed = false → st.throttleOn = false →
      ∃ k, k ≤ st.throttleCall.length ∧
        (throttleLoop cj now st).1.throttleCall = st.throttleCall.drop k ++ [now] ∧
        ((throttleLoop cj now st).1.throttleCall).length =
          min (st.throttleCall.length + 1) (throttleBufferLen cj) ∧
        ((throttleLoop cj now st).2 = true ↔
          now - ((throttleLoop cj now st).1.throttleCall).headD 0 ≤ THROTTLE_LIMIT) ∧
        ((throttleLoop cj now st).2 = true →
          (throttleLoop cj now st).1.throttleOn = true ∧
          (throttleLoop cj now st).1.timerDelay = some THROTTLE_TIMEOUT)) ∧
    (st.throttleOn = true → throttleLoop cj now st = (st, true)) ∧
    ((throttleTimeoutFire cj now pc st).1.throttleCall = [] ∧
      (throttleTimeoutFire cj now pc st).1.throttleOn = false ∧
      (st.disposed = false →
        (throttleTimeoutFire cj now pc st).2 = LoopOutcome.popIssued (cj - pc))) := by
  refine ⟨?_, ?_, ?_, ?_, ?_⟩
  · intro hd
    simp [masterLoop, hd]
  · intro hd
    simp only [masterLoop, hd, Bool.false_eq_true, if_false]
    constructor
    · split <;> rfl
    · split <;> simp_all
  · intro hd hon
    have hb : 1 ≤ throttleBufferLen cj := by
      simp [throttleBufferLen, BUFFER_GRACE]
    simp only [throttleLoop, hon, hd, Bool.or_self, Bool.false_eq_true, if_false]
    by_cases htrim : (st.throttleCall ++ [now]).length > throttleBufferLen cj
    · have hk : (st.throttleCall ++ [now]).length - throttleBufferLen cj ≤
          st.throttleCall.length := by
        simp only [List.length_append, List.length_singleton]
        omega
      have hdrop : (st.throttleCall ++ [now]).drop
          ((st.throttleCall ++ [now]).length - throttleBufferLen cj) =
          st.throttleCall.drop
            ((st.throttleCall ++ [now]).length - throttleBufferLen cj) ++ [now] :=
        List.drop_append_of_le_length hk
      simp only [htrim, if_true, hdrop]
      by_cases hlim : now - (st.throttleCall.drop
          ((st.throttleCall ++ [now]).length - throttleBufferLen cj) ++ [now]).headD 0 >
          THROTTLE_LIMIT
      · simp only [hlim, if_true]
        refine ⟨(st.throttleCall ++ [now]).length - throttleBufferLen cj, hk, rfl, ?_, ?_, ?_⟩
        · simp only [List.length_append, List.length_singleton, List.length_drop] at htrim ⊢
          omega
        · simp only [Bool.false_eq_true, false_iff, not_le]
          omega
        · intro hfalse
          simp at hfalse
      · simp only [hlim, if_false]
        refine ⟨(st.throttleCall ++ [now]).length - throttleBufferLen cj, hk, rfl, ?_, ?_, ?_⟩
        · simp only [List.length_append, List.length_singleton, List.length_drop] at htrim ⊢
          omega
        · simp only [true_iff]
          omega
        · intro _
          exact ⟨by simp, by simp⟩
    · simp only [htrim, if_false]
      by_cases hlim : now - (st.throttleCall ++ [now]).headD 0 > THROTTLE_LIMIT
      · simp only [hlim, if_true]
        refine ⟨0, Nat.zero_le _, by simp, ?_, ?_, ?_⟩
        · simp only [List.length_append, List.length_singleton] at htrim ⊢
          omega
        · simp only [Bool.false_eq_true, false_iff, not_le]
          omega
        · intro hfalse
          simp at hfalse
      · simp only [hlim, if_false]
        refine ⟨0, Nat.zero_le _, by simp, ?_, ?_, ?_⟩
        · simp only [List.length_append, List.length_singleton] at htrim ⊢
          omega
        · simp only [true_iff]
          omega
        · intro _
          exact ⟨by simp, by simp⟩
  · intro hon
    simp [throttleLoop, hon]
  · refine ⟨?_, ?_, ?_⟩
    · simp [throttleTimeoutFire, masterLoop]
      split <;> rfl
    · simp [throttleTimeoutFire, masterLoop]
      split <;> rfl
    · intro hd
      simp [throttleTimeoutFire, masterLoop, hd]

/-- Witness for claim C9: a non-disposed worker with the throttle off and a
single recent buffered call engages the throttle on an error-path
re-entry at time 100. -/
theorem claim_C9_throttle_witness :
    ((⟨false, [40], none, false⟩ : ThrottleState).disposed = false ∧
      (⟨false, [40], none, false⟩ : ThrottleState).throttleOn = false) ∧
    masterLoop 1 100 none 0 ⟨false, [40], none, false⟩ =
      (⟨false, [40], none, false⟩, LoopOutcome.popIssued 1) ∧
    (throttleLoop 1 100 ⟨false, [40], none, false⟩).2 = true :=
  ⟨⟨rfl, rfl⟩,
    (claim_C9_throttle 1 100 0 ⟨false, [40], none, false⟩ "pop failure").1 rfl,
    by
      have h := ((claim_C9_throttle 1 100 0 ⟨false, [40], none, false⟩ "pop failure").2.2.1
        rfl rfl)
      obtain ⟨k, _, _, _, hiff, _⟩ := h
      exact hiff.mpr (by decide)⟩

/-- Claim C10: fetch on a job model constructed from a full job item, or on
one whose job id is not a string, throws a synchronous Error before any
redis hmget is issued (rather than rejecting the returned promise); and
constructing a job model from an argument that is neither a non-empty
string nor a job item throws a synchronous TypeError. -/
theorem claim_C10_fetch_defense (NS tag s : String) (j : JobItem) (m : ModelState) :
    (jobModelCtor (CtorArg.itemArg j) = CtorResult.ok ⟨some j, j.id, true⟩ ∧
      jobModelFetch NS ⟨some j, j.id, true⟩ =
        FetchStep.syncThrow "Instance already contains a job item") ∧
    (m.hasJobItem = false → m.jobId = none →
      jobModelFetch NS m = FetchStep.syncThrow "No job id has been defined") ∧
    (jobModelCtor (CtorArg.otherArg tag) =
      CtorResult.typeError "Argument not string or Kickq.JobItem") ∧
    (s.length = 0 → jobModelCtor (CtorArg.strArg s) =
      CtorResult.typeError "Argument not string or Kickq.JobItem") := by
  refine ⟨⟨rfl, rfl⟩, ?_, rfl, ?_⟩
  · intro hh hid
    simp [jobModelFetch, hh, hid]
  · intro hs
    simp [jobModelCtor, hs]

/-- Witness for claim C10: a model built on the concrete job item throws on
fetch, a model with a non-string job id throws on fetch, and the empty
string is rejected by the constructor. -/
theorem claim_C10_fetch_defense_witness :
    ((⟨none, none, false⟩ : ModelState).hasJobItem = false ∧
      (⟨none, none, false⟩ : ModelState).jobId = none ∧
      ("" : String).length = 0) ∧
    jobModelFetch "kickq" ⟨some c1Job, c1Job.id, true⟩ =
      FetchStep.syncThrow "Instance already contains a job item" ∧
    jobModelFetch "kickq" ⟨none, none, false⟩ =
      FetchStep.syncThrow "No job id has been defined" ∧
    jobModelCtor (CtorArg.strArg "") =
      CtorResult.typeError "Argument not string or Kickq.JobItem" :=
  ⟨⟨rfl, rfl, rfl⟩,
    (claim_C10_fetch_defense "kickq" "t" "" c1Job ⟨none, none, false⟩).1.2,
    (claim_C10_fetch_defense "kickq" "t" "" c1Job ⟨none, none, false⟩).2.1 rfl rfl,
    (claim_C10_fetch_defense "kickq" "t" "" c1Job ⟨none, none, false⟩).2.2.2 rfl⟩

/-- Claim C1 counterexample: on the concrete job with retry on and
retryTimes 2 whose consumer callback reports the error oops on every
attempt, the second failing attempt already ends in terminal FAIL with
runs.length 2, so the claimed terminal FAIL only after three attempts with
runs.length 3 is false: the third attempt never happens. -/
theorem claim_C1_counterexample :
    (failingAttempt 10 "oops" c1Job).state = JobState.RETRY ∧
    (failingAttempt 20 "oops" (failingAttempt 10 "oops" c1Job)).state = JobState.FAIL ∧
    (failingAttempt 20 "oops" (failingAttempt 10 "oops" c1Job)).complete = true ∧
    (failingAttempt 20 "oops" (failingAttempt 10 "oops" c1Job)).runs.length = 2 ∧
    (failingAttempt 20 "oops" (failingAttempt 10 "oops" c1Job)).runs.length ≠ 3 ∧
    (failingAttempt 20 "oops" (failingAttempt 10 "oops" c1Job)).success = false := by
  refine ⟨rfl, rfl, rfl, rfl, by decide, rfl⟩

/-- Claim C1 as amended: for a job created with retry true and retryTimes 2
whose consumer callback reports an error on every attempt, processing ends
in terminal FAIL after two attempts, with runs.length 2 and success false
(a failing attempt transitions to RETRY while runs.length < retryTimes,
where runs already contains the Process Item of the attempt just
finished). -/
theorem claim_C1_retry_exhaustion (t1 t2 : Nat) (e : String) (job : JobItem)
    (he : e.length ≠ 0) (hr : job.retry = true) (ht : job.retryTimes = 2)
    (h0 : job.runs = []) :
    (failingAttempt t1 e job).state = JobState.RETRY ∧
    (failingAttempt t2 e (failingAttempt t1 e job)).state = JobState.FAIL ∧
    (failingAttempt t2 e (failingAttempt t1 e job)).complete = true ∧
    (failingAttempt t2 e (failingAttempt t1 e job)).runs.length = 2 ∧
    (failingAttempt t2 e (failingAttempt t1 e job)).success = false := by
  have hds : determineSuccess (JSVal.str e) = false := by
    simp [determineSuccess, he]
  have h1 : failingAttempt t1 e job =
      { job with
        state := JobState.RETRY
        lastError := some (JSVal.str e)
        runs := [⟨1, t1, some (t1 - t1), ProcState.FAIL, some (JSVal.str e)⟩] } := by
    simp [failingAttempt, workFinish, addProcessItem, freshProcessItem, hds,
      processedTransition, processedError, hr, ht, h0]
  rw [h1] at *
  have h2 : failingAttempt t2 e
      { job with
        state := JobState.RETRY
        lastError := some (JSVal.str e)
        runs := [⟨1, t1, some (t1 - t1), ProcState.FAIL, some (JSVal.str e)⟩] } =
      { job with
        state := JobState.FAIL
        complete := true
        success := false
        finishTime := some t2
        totalProcessTime := some (sumProcessTime
          [⟨1, t1, some (t1 - t1), ProcState.FAIL, some (JSVal.str e)⟩,
           ⟨2, t2, some (t2 - t2), ProcState.FAIL, some (JSVal.str e)⟩])
        lastError := some (JSVal.str e)
        runs := [⟨1, t1, some (t1 - t1), ProcState.FAIL, some (JSVal.str e)⟩,
                 ⟨2, t2, some (t2 - t2), ProcState.FAIL, some (JSVal.str e)⟩] } := by
    simp [failingAttempt, workFinish, addProcessItem, freshProcessItem, hds,
      processedTransition, processedError, finishJob, hr, ht]
  rw [h2]
  exact ⟨rfl, rfl, rfl, rfl, rfl⟩

/-- Witness for claim C1 as amended: the concrete job with retry on and
retryTimes 2 goes RETRY after the first failing attempt and FAIL with two
runs after the second. -/
theorem claim_C1_retry_exhaustion_witness :
    (("oops" : String).length ≠ 0 ∧ c1Job.retry = true ∧ c1Job.retryTimes = 2 ∧
      c1Job.runs = []) ∧
    (failingAttempt 10 "oops" c1Job).state = JobState.RETRY ∧
    (failingAttempt 20 "oops" (failingAttempt 10 "oops" c1Job)).state = JobState.FAIL ∧
    (failingAttempt 20 "oops" (failingAttempt 10 "oops" c1Job)).runs.length = 2 :=
  ⟨⟨by decide, rfl, rfl, rfl⟩,
    (claim_C1_retry_exhaustion 10 20 "oops" c1Job (by decide) rfl rfl rfl).1,
    (claim_C1_retry_exhaustion 10 20 "oops" c1Job (by decide) rfl rfl rfl).2.1,
    (claim_C1_retry_exhaustion 10 20 "oops" c1Job (by decide) rfl rfl rfl).2.2.2.1⟩

/-- Claim C2, evaluated at the failing inputs: the worker outcome
classification yields success true for truthy non-boolean error values such
as Error objects and numbers (the claim and the spec say these yield
success false), while non-empty strings and the boolean false yield
failure, and null, undefined, true and the empty string yield success; a
full workFinish run whose error argument is an Error object records the
process item as SUCCESS. -/
theorem claim_C2_code_evaluation :
    determineSuccess (JSVal.obj "Error: boom") = true ∧
    determineSuccess (JSVal.num 1) = true ∧
    determineSuccess (JSVal.str "boom") = false ∧
    determineSuccess (JSVal.bool false) = false ∧
    determineSuccess (JSVal.bool true) = true ∧
    determineSuccess JSVal.null = true ∧
    determineSuccess JSVal.undef = true ∧
    determineSuccess (JSVal.str "") = true ∧
    (workFinish 10 c1Job (JSVal.obj "Error: boom")
        ⟨some (freshProcessItem 0 c1Job), false⟩).effects =
      [WEffect.processed true false ProcState.SUCCESS, WEffect.masterLoop] := by
  refine ⟨rfl, rfl, by decide, rfl, rfl, rfl, rfl, by decide, rfl⟩

/-- Claim C8 counterexample: after dispose, a storage failure of the create
operation leaves the deferred returned by create pending forever; it is not
rejected with the typed error, so the claim as stated is false for a
disposed instance. -/
theorem claim_C8_counterexample :
    (createSave (Except.error (KError.database "connection lost"))
      CbBehavior.returns true).deferred = DeferredState.pending ∧
    (createSave (Except.error (KError.database "connection lost"))
      CbBehavior.returns true).deferred ≠
      DeferredState.rejected (KError.database "connection lost") := by
  exact ⟨rfl, by decide⟩

/-- Claim C8 as amended: for every failure of the create operation (storage
failure or otherwise), provided the Create instance has not been disposed,
the deferred result returned by create is rejected with the typed error of
the failure — even when the user completion callback throws, in which case
the exception is re-raised inside the promise layer rather than thrown
asynchronously; a disposed instance leaves the deferred unsettled. -/
theorem claim_C8_reject_typed (e : KError) (done : CbBehavior) :
    (createSave (Except.error e) done false).deferred = DeferredState.rejected e ∧
    (∀ m, done = CbBehavior.throws m →
      (createSave (Except.error e) done false).raisedIntoPromiseLayer = some m) := by
  cases done with
  | returns =>
    exact ⟨rfl, by intro m hm; cases hm⟩
  | throws m =>
    refine ⟨rfl, ?_⟩
    intro m2 hm
    cases hm
    rfl

/-- Witness for claim C8 as amended: a database failure on a live instance
whose callback throws still rejects the deferred with the database error,
and the callback exception lands in the promise layer. -/
theorem claim_C8_reject_typed_witness :
    (createSave (Except.error (KError.database "econnrefused"))
      (CbBehavior.throws "cb blew up") false).deferred =
      DeferredState.rejected (KError.database "econnrefused") ∧
    (createSave (Except.error (KError.database "econnrefused"))
      (CbBehavior.throws "cb blew up") false).raisedIntoPromiseLayer =
      some "cb blew up" :=
  ⟨(claim_C8_reject_typed (KError.database "econnrefused")
      (CbBehavior.throws "cb blew up")).1,
    (claim_C8_reject_typed (KError.database "econnrefused")
      (CbBehavior.throws "cb blew up")).2 "cb blew up" rfl⟩

end Kickq
